import Mathlib

/-!
Verification of the eco-chatbot dialogue engine against its specification.

The JavaScript sources are shallowly embedded as Lean definitions:

* `Chat.extractDeviceInfo`, `Chat.isDeviceInfoComplete`, `Chat.getMissingInfoMessage`,
  `Chat.updateDeviceInfo` embed `src/device-estimate-service.js`;
* `P1.extractDeviceInfo` embeds the free-text path of `extractDeviceInfo`
  in the second (unnamed) variant of the device-estimate service;
* `Emb.createSimpleEmbedding` embeds `createSimpleEmbedding` of the unnamed
  knowledge module; `Emb.specEmbedding` and `Emb.specEmbeddingInt32` follow
  the specification's wording for the fallback embedding;
* `Retr.searchRelevantDocuments` embeds `searchRelevantDocuments` of
  `src/website-knowledge.js`; `Retr.specSearch` follows the specification;
* `Chat.chatTurn` embeds the `/api/chat` handler of `src/index.js`, with
  the external gateways (location, pricing, completion) passed in as
  explicit outcomes.

JavaScript regular expressions are embedded as explicit left-to-right
scanning functions over the character list of the subject string; machine
behaviour that matters (32-bit wrap-around of `<<`, truthiness of strings,
`undefined` interpolation) is made explicit.
-/

namespace JsStr

/-- JS `\w` (word character): `[A-Za-z0-9_]`. -/
def isWordChar (c : Char) : Bool :=
  c.isAlpha || c.isDigit || c == '_'

/-- JS `\s`, restricted to the ASCII whitespace forms that can appear here. -/
def isSpaceChar (c : Char) : Bool :=
  c == ' ' || c == '\t' || c == '\n' || c == '\r' || c == '\x0b' || c == '\x0c'

/-- ASCII lower-casing, the effect of `toLowerCase` on the texts involved. -/
def lowerChar (c : Char) : Char := c.toLower

/-- ASCII upper-casing, the effect of `toUpperCase`. -/
def upperChar (c : Char) : Char := c.toUpper

/-- Does `pat` stand at the head of `s` (exact characters)? -/
def listLeads : List Char → List Char → Bool
  | [], _ => true
  | _ :: _, [] => false
  | a :: as, b :: bs => a == b && listLeads as bs

/-- Does `pat` stand at the head of `s`, comparing case-insensitively
(`pat` is given in lower case)? -/
def listLeadsCI : List Char → List Char → Bool
  | [], _ => true
  | _ :: _, [] => false
  | a :: as, b :: bs => a == lowerChar b && listLeadsCI as bs

/-- JS `String.prototype.includes` for an exact pattern. -/
def containsSubstr (pat : List Char) : List Char → Bool
  | [] => listLeads pat []
  | c :: rest => listLeads pat (c :: rest) || containsSubstr pat rest

/-- JS `trim()` (ASCII whitespace). -/
def trimChars (l : List Char) : List Char :=
  ((l.dropWhile isSpaceChar).reverse.dropWhile isSpaceChar).reverse

/-- One step of `split(/\W+/)`, walked from the right: a word character is
prepended to the current piece; a run of non-word characters opens a new
piece once (the flag records that the character to the right was already a
separator). -/
def splitNonWordStep (c : Char) : List (List Char) × Bool → List (List Char) × Bool
  | (acc, lastSep) =>
    if isWordChar c then ((c :: acc.headD []) :: acc.tail, false)
    else if lastSep then (acc, true)
    else ([] :: acc, true)

/-- `text.split(/\W+/)`: cut at each maximal run of non-word characters,
keeping the empty pieces that JS produces at the two ends. -/
def splitNonWord (l : List Char) : List (List Char) :=
  (l.foldr splitNonWordStep ([[]], false)).1

end JsStr

namespace Chat

open JsStr

/-! ### The zip-code pattern `/\b\d{5}(-\d{4})?\b/` of `src/index.js` -/

/-- A `\b` word boundary holds before the current position, whose previous
character is `prev` (`none` at the start of the string); the character at
the position itself is a digit, hence a word character. -/
def boundaryBefore (prev : Option Char) : Bool :=
  match prev with
  | none => true
  | some c => !isWordChar c

/-- A `\b` word boundary holds after a digit when the rest of the string
starts with a non-word character or is empty. -/
def boundaryAfter (rest : List Char) : Bool :=
  match rest with
  | [] => true
  | c :: _ => !isWordChar c

/-- Try `\d{5}(-\d{4})?\b` at the head of `l`, greedy on the optional group
first, exactly as the backtracking regex engine does. -/
def zipTryHere (l : List Char) : Option (List Char) :=
  let five := l.take 5
  if five.length == 5 && five.all Char.isDigit then
    let after5 := l.drop 5
    match after5 with
    | '-' :: r =>
      let four := r.take 4
      if four.length == 4 && four.all Char.isDigit && boundaryAfter (r.drop 4) then
        some (l.take 10)
      else if boundaryAfter after5 then some five else none
    | _ => if boundaryAfter after5 then some five else none
  else none

/-- Left-to-right scan of `message.match(/\b\d{5}(-\d{4})?\b/)`, returning
the matched text of the first match. -/
def zipScanAux (prev : Option Char) : List Char → Option (List Char)
  | [] => none
  | c :: rest =>
    match (if boundaryBefore prev then zipTryHere (c :: rest) else none) with
    | some m => some m
    | none => zipScanAux (some c) rest

/-- `message.match(/\b\d{5}(-\d{4})?\b/)`, as the matched zip-code text. -/
def zipMatch (message : String) : Option String :=
  (zipScanAux none message.data).map (fun l => ⟨l⟩)

/-! ### Keyword tests of the router in `src/index.js` -/

/-- `new RegExp("\\b" + keyword + "\\b", "i").test(message)` for a keyword
made of letters only. -/
def containsWordKwAux (kw : List Char) (prev : Option Char) : List Char → Bool
  | [] => false
  | c :: rest =>
    (boundaryBefore prev && listLeadsCI kw (c :: rest)
      && boundaryAfter ((c :: rest).drop kw.length))
    || containsWordKwAux kw (some c) rest

def containsWordKw (kw : String) (message : String) : Bool :=
  containsWordKwAux kw.data none message.data

def locationKeywords : List String :=
  ["location", "kiosk", "near", "nearby", "closest", "nearest", "find", "where", "atm"]

def estimateKeywords : List String :=
  ["worth", "value", "price", "estimate", "offer", "quote", "much", "pay", "get", "sell"]

/-- `locationKeywords.some(kw => new RegExp("\\b" + kw + "\\b", "i").test(message))`. -/
def isLocationQuery (message : String) : Bool :=
  locationKeywords.any (fun kw => containsWordKw kw message)

/-- `/^(yes|yeah|yep|sure|ok|okay|find|show)$/i.test(message.trim())`. -/
def isAffirmativeResponse (message : String) : Bool :=
  let t := (trimChars message.data).map lowerChar
  ["yes", "yeah", "yep", "sure", "ok", "okay", "find", "show"].any
    (fun w => t == w.data)

/-- `/what\s+is\s+(?:an\s+)?ecoatm/i.test(message)`: try the pattern at the
head of `l`. -/
def whatIsTryHere (l : List Char) : Bool :=
  if listLeadsCI "what".data l then
    let l1 := l.drop 4
    let sp1 := l1.takeWhile isSpaceChar
    if sp1.length == 0 then false else
      let l2 := l1.drop sp1.length
      if listLeadsCI "is".data l2 then
        let l3 := l2.drop 2
        let sp2 := l3.takeWhile isSpaceChar
        if sp2.length == 0 then false else
          let l4 := l3.drop sp2.length
          let withAn :=
            if listLeadsCI "an".data l4 then
              let l5 := l4.drop 2
              let sp3 := l5.takeWhile isSpaceChar
              sp3.length != 0 && listLeadsCI "ecoatm".data (l5.drop sp3.length)
            else false
          withAn || listLeadsCI "ecoatm".data l4
      else false
  else false

def whatIsScan : List Char → Bool
  | [] => false
  | c :: rest => whatIsTryHere (c :: rest) || whatIsScan rest

/-- `/what\s+is\s+(?:an\s+)?ecoatm/i.test(message)`. -/
def isWhatIsQuestion (message : String) : Bool :=
  whatIsScan message.data

/-- The estimate-intent test of `src/index.js`: an estimate keyword as a
case-insensitive substring, and one of the device words as a substring. -/
def isEstimateQuery (message : String) : Bool :=
  let low := message.data.map lowerChar
  (estimateKeywords.any (fun kw => containsSubstr kw.data low))
    && (containsSubstr "phone".data low || containsSubstr "iphone".data low
        || containsSubstr "samsung".data low || containsSubstr "device".data low)

/-! ### The three extraction patterns of the device-estimate services -/

/-- The groups of `/(iphone|galaxy|pixel)\s*(\d+)(\s*pro)?(\s*max)?/i`,
each holding the matched text with its original capitalization. -/
structure ModelGroups where
  brandKw : List Char
  digits : List Char
  proQual : Option (List Char)
  maxQual : Option (List Char)
  deriving DecidableEq

/-- Case-insensitive literal match returning the original characters and
the remainder. -/
def matchLitCI (kw : List Char) (l : List Char) : Option (List Char × List Char) :=
  if listLeadsCI kw l then some (l.take kw.length, l.drop kw.length) else none

/-- Try the model pattern at the head of `l`.  The quantifiers never need to
backtrack here: `\s*` is followed by a character that is not whitespace and
`\d+` by one that is not a digit, so greedy matching is exact. -/
def modelTryHere (l : List Char) : Option ModelGroups :=
  match matchLitCI "iphone".data l <|> matchLitCI "galaxy".data l
      <|> matchLitCI "pixel".data l with
  | none => none
  | some (brandKw, r1) =>
    let r2 := r1.dropWhile isSpaceChar
    let digits := r2.takeWhile Char.isDigit
    if digits.isEmpty then none
    else
      let r3 := r2.drop digits.length
      let sp3 := r3.takeWhile isSpaceChar
      let (proQual, r4) :=
        match matchLitCI "pro".data (r3.drop sp3.length) with
        | some (proTxt, rest) => (some (sp3 ++ proTxt), rest)
        | none => (none, r3)
      let sp4 := r4.takeWhile isSpaceChar
      let (maxQual, _) :=
        match matchLitCI "max".data (r4.drop sp4.length) with
        | some (maxTxt, rest) => (some (sp4 ++ maxTxt), rest)
        | none => (none, r4)
      some ⟨brandKw, digits, proQual, maxQual⟩

/-- `message.match(/(iphone|galaxy|pixel)\s*(\d+)(\s*pro)?(\s*max)?/i)`. -/
def modelScan : List Char → Option ModelGroups
  | [] => none
  | c :: rest =>
    match modelTryHere (c :: rest) with
    | some g => some g
    | none => modelScan rest

/-- Try `/(\d+)\s*(gb|tb)/i` at the head of `l`, returning the digit group
and the unit group (original capitalization). -/
def storageTryHere (l : List Char) : Option (List Char × List Char) :=
  let digits := l.takeWhile Char.isDigit
  if digits.isEmpty then none
  else
    let r := (l.drop digits.length).dropWhile isSpaceChar
    match matchLitCI "gb".data r <|> matchLitCI "tb".data r with
    | some (unit, _) => some (digits, unit)
    | none => none

def storageScan : List Char → Option (List Char × List Char)
  | [] => none
  | c :: rest =>
    match storageTryHere (c :: rest) with
    | some g => some g
    | none => storageScan rest

/-- Try `/(verizon|at&t|t-mobile|sprint|unlocked)/i` at the head of `l`. -/
def carrierTryHere (l : List Char) : Option (List Char) :=
  (matchLitCI "verizon".data l <|> matchLitCI "at&t".data l
    <|> matchLitCI "t-mobile".data l <|> matchLitCI "sprint".data l
    <|> matchLitCI "unlocked".data l).map Prod.fst

def carrierScan : List Char → Option (List Char)
  | [] => none
  | c :: rest =>
    match carrierTryHere (c :: rest) with
    | some g => some g
    | none => carrierScan rest

/-! ### `extractDeviceInfo` and its companions, `src/device-estimate-service.js` -/

/-- `word.charAt(0).toUpperCase() + word.slice(1).toLowerCase()`. -/
def capFirstLowerRest : List Char → List Char
  | [] => []
  | c :: rest => upperChar c :: rest.map lowerChar

/-- The brand table `{'iphone':'Apple','galaxy':'Samsung','pixel':'Google'}`,
with the `|| 'Unknown'` fallback of the source. -/
def brandMap (kwLower : List Char) : String :=
  if kwLower = "iphone".data then "Apple"
  else if kwLower = "galaxy".data then "Samsung"
  else if kwLower = "pixel".data then "Google"
  else "Unknown"

/-- The model name built from the match:
`` `${cap(kw)} ${digits}` `` with the `pro`/`max` groups appended verbatim. -/
def modelNameOf (g : ModelGroups) : String :=
  ⟨capFirstLowerRest g.brandKw ++ (' ' :: g.digits)
    ++ (g.proQual.getD []) ++ (g.maxQual.getD [])⟩

/-- `` `${storageMatch[1]}${storageMatch[2].toUpperCase()}` ``. -/
def storageOf (m : List Char × List Char) : String :=
  ⟨m.1 ++ m.2.map upperChar⟩

/-- `carrierMatch[1].charAt(0).toUpperCase() + carrierMatch[1].slice(1).toLowerCase()`. -/
def carrierOf (m : List Char) : String :=
  ⟨capFirstLowerRest m⟩

/-- The `missingInfo` record recomputed by the service. -/
structure MissingInfo where
  storage : Bool
  carrier : Bool
  model : Bool
  deriving DecidableEq

/-- The device record of `src/device-estimate-service.js`: every field may
be absent (JS `undefined`). -/
structure DeviceInfo where
  modelName : Option String
  seriesName : Option String
  brandName : Option String
  storageOption : Option String
  carrierName : Option String
  missingInfo : Option MissingInfo
  deriving DecidableEq

/-- JS truthiness of an optional string: `undefined` and `""` are falsy. -/
def truthyStr : Option String → Bool
  | none => false
  | some s => s ≠ ""

/-- `extractDeviceInfo(message)` of `src/device-estimate-service.js`: the
three independent pattern matches; the result is returned whenever at least
one key was set, `null` only when none matched. -/
def extractDeviceInfo (message : String) : Option DeviceInfo :=
  let modelMatch := modelScan message.data
  let storageMatch := storageScan message.data
  let carrierMatch := carrierScan message.data
  if modelMatch.isNone && storageMatch.isNone && carrierMatch.isNone then none
  else
    let modelName := modelMatch.map modelNameOf
    let storageOption := storageMatch.map storageOf
    let carrierName := carrierMatch.map carrierOf
    some
      { modelName := modelName
        seriesName := modelName
        brandName := modelMatch.map (fun g => brandMap (g.brandKw.map lowerChar))
        storageOption := storageOption
        carrierName := carrierName
        missingInfo := some
          { storage := !truthyStr storageOption
            carrier := !truthyStr carrierName
            model := !truthyStr modelName } }

/-- `isDeviceInfoComplete` (on a non-null record). -/
def isDeviceInfoComplete (d : DeviceInfo) : Bool :=
  truthyStr d.modelName && truthyStr d.brandName
    && truthyStr d.storageOption && truthyStr d.carrierName

/-- Template interpolation of a possibly-undefined value:
`` `${x}` `` renders JS `undefined` as the literal text `"undefined"`. -/
def jsInterp : Option String → String
  | none => "undefined"
  | some s => s

def storagePhrase : String := "storage capacity (e.g., 128GB, 256GB)"

def carrierPhrase : String := "carrier (e.g., Verizon, AT&T, T-Mobile, or Unlocked)"

/-- `getMissingInfoMessage` of `src/device-estimate-service.js`. -/
def getMissingInfoMessage (d : DeviceInfo) : Option String :=
  let missingFields :=
    (if !truthyStr d.storageOption then [storagePhrase] else [])
      ++ (if !truthyStr d.carrierName then [carrierPhrase] else [])
  let deviceDesc := jsInterp d.brandName ++ " " ++ jsInterp d.modelName
  match missingFields with
  | [] => none
  | [f] =>
    some ("To provide an accurate estimate for your " ++ deviceDesc
      ++ ", I need to know the " ++ f ++ ". Could you please provide this information?")
  | fs =>
    some ("To provide an accurate estimate for your " ++ deviceDesc
      ++ ", I need to know the " ++ String.intercalate " and " fs
      ++ ". Could you please provide this information?")

/-- JS `a || b` on optional strings: the left value when truthy, else the right. -/
def jsOrStr (a b : Option String) : Option String :=
  if truthyStr a then a else b

/-- The merged record built by `updateDeviceInfo` when both sides are
present: each field `newInfo.f || existingInfo.f`, and `missingInfo`
recomputed. -/
def mergeRecords (existing newInfo : DeviceInfo) : DeviceInfo :=
  let modelName := jsOrStr newInfo.modelName existing.modelName
  let seriesName := jsOrStr newInfo.seriesName existing.seriesName
  let brandName := jsOrStr newInfo.brandName existing.brandName
  let storageOption := jsOrStr newInfo.storageOption existing.storageOption
  let carrierName := jsOrStr newInfo.carrierName existing.carrierName
  { modelName := modelName
    seriesName := seriesName
    brandName := brandName
    storageOption := storageOption
    carrierName := carrierName
    missingInfo := some
      { storage := !truthyStr storageOption
        carrier := !truthyStr carrierName
        model := !truthyStr modelName } }

/-- `updateDeviceInfo(existingInfo, newInfo)` of
`src/device-estimate-service.js`. -/
def updateDeviceInfo : Option DeviceInfo → Option DeviceInfo → Option DeviceInfo
  | none, newInfo => newInfo
  | some existing, none => some existing
  | some existing, some newInfo => some (mergeRecords existing newInfo)

end Chat

namespace P1

open JsStr Chat

/-- The always-complete record of the second (unnamed) variant of the
device-estimate service: its free-text path fills every field, with the
defaults `"128GB"` and `"Verizon"`. -/
structure P1DeviceInfo where
  modelName : String
  seriesName : String
  storageOption : String
  carrierName : String
  brandName : String
  deriving DecidableEq

/-- The free-text path of `extractDeviceInfo` in the unnamed variant:
`if (!modelMatch) return null`, then defaults for storage and carrier. -/
def extractDeviceInfo (message : String) : Option P1DeviceInfo :=
  match modelScan message.data with
  | none => none
  | some g =>
    let modelName := modelNameOf g
    some
      { modelName := modelName
        seriesName := modelName
        storageOption := (storageScan message.data).elim "128GB" storageOf
        carrierName := (carrierScan message.data).elim "Verizon" carrierOf
        brandName := brandMap (g.brandKw.map lowerChar) }

end P1

namespace Emb

open JsStr

/-! ### The fallback embedding `createSimpleEmbedding` of the unnamed
knowledge module -/

/-- `text.toLowerCase().split(/\W+/)`. -/
def jsTokens (text : String) : List (List Char) :=
  splitNonWord (text.data.map lowerChar)

/-- ECMAScript `ToInt32`: reduce modulo `2^32` into `[-2^31, 2^31)`. -/
def toInt32 (n : ℤ) : ℤ :=
  let m := n % 4294967296
  if m < 2147483648 then m else m - 4294967296

/-- `hash << 5`: `ToInt32(hash)` shifted left by five, wrapped to a signed
32-bit integer. -/
def jsShl5 (h : ℤ) : ℤ := toInt32 (toInt32 h * 32)

/-- `hash = ((hash << 5) - hash) + word.charCodeAt(i)`; outside the shift
the arithmetic is exact (the values stay far below `2^53`). -/
def jsHashStep (h : ℤ) (c : Char) : ℤ := jsShl5 h - h + c.toNat

/-- The hash accumulated over the characters of one token. -/
def jsHash (w : List Char) : ℤ := w.foldl jsHashStep 0

/-- `Math.abs(hash) % vector.length` with `vector.length = 1536`. -/
def jsIdx (w : List Char) : Fin 1536 :=
  ⟨(jsHash w).natAbs % 1536, Nat.mod_lt _ (by norm_num)⟩

/-- The exact (arbitrary-precision) polynomial string hash
`hash = hash*31 + charCode` named by the specification. -/
def polyHash (w : List Char) : ℕ := w.foldl (fun h c => h * 31 + c.toNat) 0

/-- `abs(hash) mod 1536` for the exact polynomial hash (nonnegative, so the
absolute value is the identity). -/
def polyIdx (w : List Char) : Fin 1536 :=
  ⟨polyHash w % 1536, Nat.mod_lt _ (by norm_num)⟩

/-- The token-count vector described by the specification: slot `i` holds
the number of tokens whose hashed index is `i`. -/
def tokenCounts (idx : List Char → Fin 1536) (text : String) : Fin 1536 → ℝ :=
  fun i => ((jsTokens text).countP (fun w => idx w = i) : ℕ)

/-- L2 normalization with a zero norm treated as norm 1
(`Math.sqrt(...) || 1`, then `vector.map(val => val / magnitude)`). -/
noncomputable def l2normalize (v : Fin 1536 → ℝ) : Fin 1536 → ℝ :=
  fun i =>
    v i / (if Real.sqrt (∑ j, v j * v j) = 0 then 1
           else Real.sqrt (∑ j, v j * v j))

/-- `createSimpleEmbedding(text)` of the unnamed knowledge module: a
1536-slot zero vector, `vector[idx] += 1` per token, then normalization. -/
noncomputable def createSimpleEmbedding (text : String) : Fin 1536 → ℝ :=
  l2normalize
    ((jsTokens text).foldl
      (fun v w => Function.update v (jsIdx w) (v (jsIdx w) + 1))
      (fun _ => 0))

/-- The reference embedding exactly as the claim words it: the same
pipeline with the exact polynomial hash `hash = hash*31 + charCode`. -/
noncomputable def specEmbedding (text : String) : Fin 1536 → ℝ :=
  l2normalize (tokenCounts polyIdx text)

/-- The reference embedding amended to the hash the source computes: the
32-bit-wrapped accumulation `hash = ((hash << 5) - hash) + charCode`. -/
noncomputable def specEmbeddingInt32 (text : String) : Fin 1536 → ℝ :=
  l2normalize (tokenCounts jsIdx text)

end Emb

namespace Retr

/-! ### `searchRelevantDocuments` of `src/website-knowledge.js` -/

/-- `vecA.reduce((sum, val, i) => sum + val * vecB[i], 0)`. -/
def dotList (a b : List ℝ) : ℝ := (List.zipWith (fun x y => x * y) a b).sum

/-- `Math.sqrt(vec.reduce((sum, val) => sum + val * val, 0))`. -/
noncomputable def magList (a : List ℝ) : ℝ :=
  Real.sqrt ((a.map (fun x => x * x)).sum)

/-- `cosineSimilarity(vecA, vecB)`: `dot / (magA * magB)`. -/
noncomputable def cosineSimilarity (a b : List ℝ) : ℝ :=
  dotList a b / (magList a * magList b)

/-- `similarities.map((score, idx) => ({score, idx}))`: each score paired
with its position. -/
def enumFrom (n : ℕ) : List ℝ → List (ℝ × ℕ)
  | [] => []
  | x :: xs => (x, n) :: enumFrom (n + 1) xs

/-- Insertion of the earliest-ranked remaining pair for the stable sort
with comparator `(a, b) => b.score - a.score`: the inserted pair precedes
exactly those pairs with a strictly smaller score. -/
noncomputable def insertDesc (p : ℝ × ℕ) : List (ℝ × ℕ) → List (ℝ × ℕ)
  | [] => [p]
  | q :: l => if p.1 < q.1 then q :: insertDesc p l else p :: q :: l

/-- The stable descending sort performed by
`.sort((a, b) => b.score - a.score)` (ECMAScript sort is stable). -/
noncomputable def sortDesc : List (ℝ × ℕ) → List (ℝ × ℕ)
  | [] => []
  | p :: l => insertDesc p (sortDesc l)

/-- Insertion for the order the specification describes: descending score,
with equal scores ordered by ascending original position. -/
noncomputable def insertLex (p : ℝ × ℕ) : List (ℝ × ℕ) → List (ℝ × ℕ)
  | [] => [p]
  | q :: l =>
    if p.1 < q.1 ∨ (q.1 = p.1 ∧ q.2 < p.2) then q :: insertLex p l
    else p :: q :: l

/-- Sorting by descending score with ties broken by ingestion order
(first-inserted wins), per the specification's wording. -/
noncomputable def sortLex : List (ℝ × ℕ) → List (ℝ × ℕ)
  | [] => []
  | p :: l => insertLex p (sortLex l)

/-- `searchRelevantDocuments(query, topK)` of `src/website-knowledge.js`,
with the query's embedding passed in (the real embedding call is an
external gateway): score every stored embedding, stable-sort the
`(score, idx)` pairs descending, `slice(0, topK)`, and read the documents
back off by index. -/
noncomputable def searchRelevantDocuments {α : Type} [Inhabited α]
    (documents : List α) (vectorStore : List (List ℝ))
    (queryEmbedding : List ℝ) (topK : ℕ) : List α :=
  let similarities :=
    vectorStore.map (fun docEmbedding => cosineSimilarity queryEmbedding docEmbedding)
  let topIndices := ((sortDesc (enumFrom 0 similarities)).take topK).map Prod.snd
  topIndices.map (fun idx => documents.getD idx default)

/-- Retrieval as the specification words it: order the scored positions by
descending cosine similarity with ties broken by original ingestion order,
truncate to `topK`, and return the corresponding documents. -/
noncomputable def specSearch {α : Type} [Inhabited α]
    (documents : List α) (vectorStore : List (List ℝ))
    (queryEmbedding : List ℝ) (topK : ℕ) : List α :=
  let similarities :=
    vectorStore.map (fun docEmbedding => cosineSimilarity queryEmbedding docEmbedding)
  let ranked := ((sortLex (enumFrom 0 similarities)).take topK).map Prod.snd
  ranked.map (fun idx => documents.getD idx default)

end Retr

namespace Chat

/-! ### The `/api/chat` handler of `src/index.js` -/

inductive Role where
  | user
  | assistant
  deriving DecidableEq

/-- One transcript turn; the content is optional because the handler can
push a `null` reply (`getMissingInfoMessage` may return `null`). -/
structure Turn where
  role : Role
  content : Option String
  deriving DecidableEq

/-- The per-conversation state held in the `conversations` map. -/
structure Session where
  messages : List Turn
  awaitingZipCode : Bool
  awaitingDeviceInfo : Bool
  partialDeviceInfo : Option DeviceInfo
  deriving DecidableEq

/-- A fresh conversation as initialized by the handler. -/
def freshSession : Session :=
  { messages := [], awaitingZipCode := false, awaitingDeviceInfo := false
    partialDeviceInfo := none }

/-- The outcome of one external gateway call. -/
inductive GatewayResult (α : Type) where
  | ok (value : α)
  | fail
  deriving DecidableEq

/-- One result row of `findLocationsByZipCode`. -/
structure Location where
  name : String
  address : String
  city : String
  state : String
  deriving DecidableEq

/-- The gateway outcomes a single turn can consume.  The pricing result
models `getDeviceEstimate`: `ok (some offer)` is a payout with a truthy
`offer`, `ok none` a payout without one, `fail` a thrown error. -/
structure Gateways where
  locations : GatewayResult (List Location)
  estimate : GatewayResult (Option String)
  completion : GatewayResult String
  deriving DecidableEq

/-- Which branch of the handler ran (the router's decision). -/
inductive ChatAction where
  | resolveLocation (zipCode : String)
  | askZipRepeat
  | askZip
  | estimateFlow
  | general
  deriving DecidableEq

/-- The HTTP outcome: a 200 reply, or the 500 `{error: ...}` payload of the
outer catch. -/
inductive TurnOutcome where
  | ok (reply : Option String)
  | serverError
  deriving DecidableEq

/-- `- ${loc.Name}: ${loc.Address}, ${loc.City}, ${loc.State}`. -/
def formatLocation (loc : Location) : String :=
  "- " ++ loc.name ++ ": " ++ loc.address ++ ", " ++ loc.city ++ ", " ++ loc.state

/-- The location branch: reply text and session update for a zip-code
message, for each gateway outcome.  Every path resets `awaitingZipCode`. -/
def locationResolve (s : Session) (zipCode : String)
    (locations : GatewayResult (List Location)) : String × Session :=
  match locations with
  | .ok locs =>
    if 0 < locs.length then
      ("Here are some ecoATM locations near " ++ zipCode ++ ":\n"
          ++ String.intercalate "\n" ((locs.take 3).map formatLocation),
        { s with awaitingZipCode := false })
    else
      ("I couldn't find any ecoATM locations near " ++ zipCode
          ++ ". Please try another zip code or visit our website at ecoatm.com to use the location finder.",
        { s with awaitingZipCode := false })
  | .fail =>
    ("I'm having trouble finding locations right now. Please try again later or visit our website at ecoatm.com to use the location finder.",
      { s with awaitingZipCode := false })

/-- The device record the estimate branch works with: the fresh extraction
merged over any stored partial record, exactly as the handler does it. -/
def mergedDeviceInfo (s : Session) (message : String) : Option DeviceInfo :=
  match extractDeviceInfo message, s.partialDeviceInfo with
  | some fresh, some stored => updateDeviceInfo (some stored) (some fresh)
  | none, some stored => some stored
  | fresh, none => fresh

def estimateSuccessMsg (d : DeviceInfo) (offer : String) : String :=
  "Based on the information provided, your " ++ jsInterp d.brandName ++ " "
    ++ jsInterp d.modelName ++ " (" ++ jsInterp d.storageOption ++ ", "
    ++ jsInterp d.carrierName ++ ") is estimated to be worth " ++ offer
    ++ ". This is an estimate for a device that powers on, has no screen damage, and no cracks. The actual offer may vary based on the condition of your device when assessed at an ecoATM kiosk."

def noOfferMsg : String :=
  "I'm sorry, I couldn't get an estimate for that device. Please check that the device information is correct or try a different device."

def estimateErrorMsg : String :=
  "I'm sorry, I encountered an error while trying to get an estimate for your device. Please try again later."

def stillAwaitingMsg : String :=
  "I'm still having trouble understanding which device you want to get an estimate for. Please provide the brand (like Apple, Samsung), model (like iPhone 13, Galaxy S21), storage size (like 128GB), and carrier (like Verizon, AT&T)."

def firstPromptMsg : String :=
  "I'd be happy to give you an estimate for your device! To provide an accurate estimate, I need to know the brand (like Apple, Samsung), model (like iPhone 13, Galaxy S21), storage size (like 128GB), and carrier (like Verizon, AT&T). Could you please provide these details?"

/-- The estimate branch of the handler (its `try`/`catch` included: a
thrown pricing call lands on the `.fail` row). -/
def estimateStep (s : Session) (message : String)
    (estimate : GatewayResult (Option String)) : Option String × Session :=
  match mergedDeviceInfo s message with
  | some info =>
    if isDeviceInfoComplete info then
      match estimate with
      | .ok (some offer) =>
        (some (estimateSuccessMsg info offer),
          { s with partialDeviceInfo := none, awaitingDeviceInfo := false })
      | .ok none =>
        (some noOfferMsg,
          { s with partialDeviceInfo := none, awaitingDeviceInfo := false })
      | .fail =>
        (some estimateErrorMsg,
          { s with awaitingDeviceInfo := false, partialDeviceInfo := none })
    else
      (getMissingInfoMessage info,
        { s with partialDeviceInfo := some info, awaitingDeviceInfo := true })
  | none =>
    if s.awaitingDeviceInfo then (some stillAwaitingMsg, s)
    else (some firstPromptMsg, { s with awaitingDeviceInfo := true })

/-- The last stored turn asked about the "nearest ecoATM location"
(`messages[messages.length - 2]` once the user turn is pushed).  A stored
turn with `null` content is treated as not containing the text; no claim
exercises that corner. -/
def previouslyAskedAboutLocation (s : Session) : Bool :=
  match s.messages.getLast? with
  | some t =>
    t.role == .assistant
      && (match t.content with
          | some c => JsStr.containsSubstr "nearest ecoATM location".data c.data
          | none => false)
  | none => false

/-- The guard of the ask-for-zip branch. -/
def locationCond (s : Session) (message : String) : Bool :=
  !isWhatIsQuestion message
    && (isLocationQuery message
        || (previouslyAskedAboutLocation s && isAffirmativeResponse message))

/-- The guard of the estimate branch. -/
def estimateCond (s : Session) (message : String) : Bool :=
  isEstimateQuery message || s.awaitingDeviceInfo

def askZipRepeatMsg : String :=
  "To find ecoATM locations near you, I'll need your zip code. Please enter your 5-digit zip code."

def askZipMsg : String :=
  "I'd be happy to help you find the nearest ecoATM kiosk! To locate the closest kiosk to you, I'll need your zip code. Please enter your 5-digit zip code."

/-- The value of one `/api/chat` turn. -/
structure ChatResult where
  session : Session
  outcome : TurnOutcome
  action : ChatAction
  deriving DecidableEq

/-- Append the assistant reply and report success. -/
def finishTurn (s : Session) (reply : Option String) (action : ChatAction) : ChatResult :=
  { session := { s with messages := s.messages ++ [⟨.assistant, reply⟩] }
    outcome := .ok reply
    action := action }

/-- One turn of the `/api/chat` handler of `src/index.js`, with the
external gateway outcomes passed in.  The user turn is pushed before any
classification; the only unhandled throw is the completion gateway of the
general branch, which skips the assistant push and yields the 500 payload. -/
def chatTurn (conv : Session) (message : String) (gw : Gateways) : ChatResult :=
  let s1 : Session := { conv with messages := conv.messages ++ [⟨.user, some message⟩] }
  match zipMatch message with
  | some zipCode =>
    let (reply, s2) := locationResolve s1 zipCode gw.locations
    finishTurn s2 (some reply) (.resolveLocation zipCode)
  | none =>
    if conv.awaitingZipCode then
      finishTurn s1 (some askZipRepeatMsg) .askZipRepeat
    else if locationCond conv message then
      finishTurn { s1 with awaitingZipCode := true } (some askZipMsg) .askZip
    else if estimateCond conv message then
      let (reply, s2) := estimateStep s1 message gw.estimate
      finishTurn s2 reply .estimateFlow
    else
      match gw.completion with
      | .ok text => finishTurn s1 (some text) .general
      | .fail => { session := s1, outcome := .serverError, action := .general }

end Chat

/-! ## Claim theorems -/

/-- C1, counterexample: on `"256GB on Verizon"` the model pattern does not
match, yet `extractDeviceInfo` of `src/device-estimate-service.js` returns
a record populated from storage and carrier alone instead of `null`. -/
theorem claim_C1_counterexample :
    Chat.modelScan "256GB on Verizon".data = none
    ∧ Chat.extractDeviceInfo "256GB on Verizon"
        = some { modelName := none, seriesName := none, brandName := none
                 storageOption := some "256GB", carrierName := some "Verizon"
                 missingInfo := some { storage := false, carrier := false, model := true } } := by
  decide

/-- C1, amended: when the model pattern does not match, the unnamed
variant's extractor returns `null`; the extractor of
`src/device-estimate-service.js` returns `null` only when storage and
carrier also fail to match, and otherwise returns a record whose brand,
model and series are all absent — it never guesses a brand from storage or
carrier alone. -/
theorem claim_C1_amended (message : String)
    (h : Chat.modelScan message.data = none) :
    P1.extractDeviceInfo message = none
    ∧ (Chat.extractDeviceInfo message = none
        ↔ Chat.storageScan message.data = none ∧ Chat.carrierScan message.data = none)
    ∧ (∀ d, Chat.extractDeviceInfo message = some d →
        d.brandName = none ∧ d.modelName = none ∧ d.seriesName = none) := by
  refine ⟨?_, ?_, ?_⟩
  · unfold P1.extractDeviceInfo
    rw [h]
  · unfold Chat.extractDeviceInfo
    rw [h]
    rcases hs : Chat.storageScan message.data with _ | s <;>
      rcases hc : Chat.carrierScan message.data with _ | c <;>
        simp [Option.isNone]
  · intro d hd
    unfold Chat.extractDeviceInfo at hd
    rw [h] at hd
    by_cases hcond : (Chat.storageScan message.data).isNone
        && (Chat.carrierScan message.data).isNone
    · simp [hcond] at hd
    · simp [hcond] at hd
      rw [← hd]
      simp

/-- C1, witness for the amended theorem at the message
`"256GB on Verizon"`. -/
theorem claim_C1_amended_witness :
    Chat.modelScan "256GB on Verizon".data = none
    ∧ P1.extractDeviceInfo "256GB on Verizon" = none := by
  refine ⟨by decide, (claim_C1_amended "256GB on Verizon" (by decide)).1⟩

/-- C2, counterexample: on the exact message of the claim the extractor
does produce a record, but its model field is `"Iphone 13 Pro"` — the
space and the original capitalization of the matched `" Pro"` qualifier
are kept — and not the claimed `"Iphone 13Pro"`. -/
theorem claim_C2_counterexample :
    (Chat.extractDeviceInfo "I have an iPhone 13 Pro with 256GB on Verizon").map
        Chat.DeviceInfo.modelName = some (some "Iphone 13 Pro")
    ∧ (Chat.extractDeviceInfo "I have an iPhone 13 Pro with 256GB on Verizon").map
        Chat.DeviceInfo.modelName ≠ some (some "Iphone 13Pro") := by
  decide

/-- C2, amended: extraction on the exact message yields brand `"Apple"`,
model and series `"Iphone 13 Pro"` (the `" Pro"` qualifier appended with
its original spacing and capitalization; only the brand keyword is
re-capitalized), storage `"256GB"`, carrier `"Verizon"` — in both
extractor variants. -/
theorem claim_C2_amended :
    Chat.extractDeviceInfo "I have an iPhone 13 Pro with 256GB on Verizon"
      = some { modelName := some "Iphone 13 Pro", seriesName := some "Iphone 13 Pro"
               brandName := some "Apple", storageOption := some "256GB"
               carrierName := some "Verizon"
               missingInfo := some { storage := false, carrier := false, model := false } }
    ∧ P1.extractDeviceInfo "I have an iPhone 13 Pro with 256GB on Verizon"
      = some { modelName := "Iphone 13 Pro", seriesName := "Iphone 13 Pro"
               storageOption := "256GB", carrierName := "Verizon", brandName := "Apple" } := by
  decide

/-- C7: the missing-slot prompt composer enumerates the missing fields in
the fixed order storage before carrier, joining two missing fields with
" and " in that order; with only the carrier missing the enumerated phrase
mentions carrier and not storage; and with nothing missing it returns
`null`. -/
theorem claim_C7_missing_prompt (d : Chat.DeviceInfo) :
    Chat.getMissingInfoMessage d =
      (if Chat.truthyStr d.storageOption then
        if Chat.truthyStr d.carrierName then none
        else some ("To provide an accurate estimate for your "
          ++ (Chat.jsInterp d.brandName ++ " " ++ Chat.jsInterp d.modelName)
          ++ ", I need to know the " ++ Chat.carrierPhrase
          ++ ". Could you please provide this information?")
       else
        if Chat.truthyStr d.carrierName then
          some ("To provide an accurate estimate for your "
            ++ (Chat.jsInterp d.brandName ++ " " ++ Chat.jsInterp d.modelName)
            ++ ", I need to know the " ++ Chat.storagePhrase
            ++ ". Could you please provide this information?")
        else
          some ("To provide an accurate estimate for your "
            ++ (Chat.jsInterp d.brandName ++ " " ++ Chat.jsInterp d.modelName)
            ++ ", I need to know the "
            ++ (Chat.storagePhrase ++ " and " ++ Chat.carrierPhrase)
            ++ ". Could you please provide this information?"))
    ∧ JsStr.containsSubstr "carrier".data Chat.carrierPhrase.data = true
    ∧ JsStr.containsSubstr "storage".data Chat.carrierPhrase.data = false
    ∧ JsStr.containsSubstr "storage".data Chat.storagePhrase.data = true
    ∧ JsStr.containsSubstr "carrier".data Chat.storagePhrase.data = false := by
  refine ⟨?_, by decide, by decide, by decide, by decide⟩
  unfold Chat.getMissingInfoMessage
  by_cases hs : Chat.truthyStr d.storageOption <;>
    by_cases hc : Chat.truthyStr d.carrierName <;>
      simp [hs, hc, String.intercalate, String.intercalate.go]

/-- C8: the slot merger satisfies the identity laws `merge(s, null) = s`
and `merge(null, s) = s`, and merging two present records is right-biased
per field — each field takes the incoming value when that value is truthy
(a present, non-empty string), else the existing value — as in the claim's
example, where incoming storage `"128GB"` wins over existing `"64GB"`. -/
theorem claim_C8_merge (s a b : Chat.DeviceInfo) :
    Chat.updateDeviceInfo (some s) none = some s
    ∧ Chat.updateDeviceInfo none (some s) = some s
    ∧ Chat.updateDeviceInfo (some a) (some b) = some (Chat.mergeRecords a b)
    ∧ (Chat.mergeRecords a b).modelName
        = (if Chat.truthyStr b.modelName then b.modelName else a.modelName)
    ∧ (Chat.mergeRecords a b).seriesName
        = (if Chat.truthyStr b.seriesName then b.seriesName else a.seriesName)
    ∧ (Chat.mergeRecords a b).brandName
        = (if Chat.truthyStr b.brandName then b.brandName else a.brandName)
    ∧ (Chat.mergeRecords a b).storageOption
        = (if Chat.truthyStr b.storageOption then b.storageOption else a.storageOption)
    ∧ (Chat.mergeRecords a b).carrierName
        = (if Chat.truthyStr b.carrierName then b.carrierName else a.carrierName)
    ∧ (Chat.mergeRecords
        { modelName := none, seriesName := none, brandName := none
          storageOption := some "64GB", carrierName := none, missingInfo := none }
        { modelName := none, seriesName := none, brandName := none
          storageOption := some "128GB", carrierName := none, missingInfo := none }).storageOption
        = some "128GB" := by
  refine ⟨rfl, rfl, rfl, ?_, ?_, ?_, ?_, ?_, by decide⟩ <;>
    simp [Chat.mergeRecords, Chat.jsOrStr]

/-- Gateway outcomes in which every call fails, used by witnesses. -/
def failingGateways : Chat.Gateways :=
  { locations := .fail, estimate := .fail, completion := .fail }

/-- C5: a message containing the whole-word zip-code pattern routes to the
location-resolution branch with the matched code, before any other
classification and regardless of the session flags. -/
theorem claim_C5_zip_preempts (conv : Chat.Session) (message : String)
    (gw : Chat.Gateways) (z : String) (h : Chat.zipMatch message = some z) :
    (Chat.chatTurn conv message gw).action = Chat.ChatAction.resolveLocation z := by
  unfold Chat.chatTurn
  rw [h]
  rfl

/-- C5, witness: `"find a kiosk near 92101"` routes to location resolution
with `"92101"` (and so not to the ask-for-zip branch) even with both
`awaiting` flags set. -/
theorem claim_C5_witness :
    Chat.zipMatch "find a kiosk near 92101" = some "92101"
    ∧ (Chat.chatTurn
        { messages := [], awaitingZipCode := true, awaitingDeviceInfo := true
          partialDeviceInfo := none }
        "find a kiosk near 92101" failingGateways).action
      = Chat.ChatAction.resolveLocation "92101" := by
  exact ⟨by decide, claim_C5_zip_preempts _ _ _ _ (by decide)⟩

/-- The location branch never touches the transcript and always resets
`awaitingZipCode`, whatever the gateway outcome. -/
theorem locationResolve_session (s : Chat.Session) (z : String)
    (g : Chat.GatewayResult (List Chat.Location)) :
    (Chat.locationResolve s z g).2.messages = s.messages
    ∧ (Chat.locationResolve s z g).2.awaitingZipCode = false := by
  unfold Chat.locationResolve
  rcases g with locs | _
  · by_cases h : 0 < locs.length <;> simp [h]
  · exact ⟨rfl, rfl⟩

/-- The estimate branch never touches the transcript. -/
theorem estimateStep_messages (s : Chat.Session) (m : String)
    (g : Chat.GatewayResult (Option String)) :
    (Chat.estimateStep s m g).2.messages = s.messages := by
  unfold Chat.estimateStep
  rcases hM : Chat.mergedDeviceInfo s m with _ | info
  · by_cases hA : s.awaitingDeviceInfo <;> simp [hA]
  · by_cases hC : Chat.isDeviceInfoComplete info
    · rcases g with v | _
      · rcases v with _ | offer <;> simp [hC]
      · simp [hC]
    · simp [hC]

/-- A session whose `messages` field alone was replaced yields the same
merged device record. -/
theorem mergedDeviceInfo_eq (s s' : Chat.Session) (message : String)
    (h : s.partialDeviceInfo = s'.partialDeviceInfo) :
    Chat.mergedDeviceInfo s message = Chat.mergedDeviceInfo s' message := by
  unfold Chat.mergedDeviceInfo
  rw [h]

/-- Once the estimate branch holds a complete record, a failed pricing
call or a payout without an offer resets both pieces of pending state. -/
theorem estimateStep_clears (s : Chat.Session) (m : String)
    (g : Chat.GatewayResult (Option String)) (info : Chat.DeviceInfo)
    (hM : Chat.mergedDeviceInfo s m = some info)
    (hC : Chat.isDeviceInfoComplete info = true)
    (hG : g = .fail ∨ g = .ok none) :
    (Chat.estimateStep s m g).2.awaitingDeviceInfo = false
    ∧ (Chat.estimateStep s m g).2.partialDeviceInfo = none := by
  unfold Chat.estimateStep
  rw [hM]
  rcases hG with h | h <;> rw [h] <;> simp [hC]

/-- C6: every failure path of the two resolution flows clears its pending
state.  Whenever a zip code was provided, the location branch resets
`awaitingZipCode` for every gateway outcome — failure and empty result
included.  Whenever the estimate branch reaches the pricing gateway with a
complete record, a thrown call or a payout without an offer resets
`awaitingDeviceInfo` and drops the stored partial record. -/
theorem claim_C6_failure_clears :
    (∀ (conv : Chat.Session) (message : String) (gw : Chat.Gateways) (z : String),
      Chat.zipMatch message = some z →
      (Chat.chatTurn conv message gw).session.awaitingZipCode = false)
    ∧ (∀ (conv : Chat.Session) (message : String) (gw : Chat.Gateways)
        (info : Chat.DeviceInfo),
      Chat.zipMatch message = none →
      conv.awaitingZipCode = false →
      Chat.locationCond conv message = false →
      Chat.estimateCond conv message = true →
      Chat.mergedDeviceInfo conv message = some info →
      Chat.isDeviceInfoComplete info = true →
      (gw.estimate = .fail ∨ gw.estimate = .ok none) →
      (Chat.chatTurn conv message gw).session.awaitingDeviceInfo = false
        ∧ (Chat.chatTurn conv message gw).session.partialDeviceInfo = none) := by
  constructor
  · intro conv message gw z h
    unfold Chat.chatTurn
    rw [h]
    simpa [Chat.finishTurn] using (locationResolve_session
      { conv with messages := conv.messages ++ [⟨.user, some message⟩] } z gw.locations).2
  · intro conv message gw info hz hA hL hE hM hC hG
    unfold Chat.chatTurn
    rw [hz]
    have hstep := estimateStep_clears
      ⟨conv.messages ++ [⟨.user, some message⟩], false,
        conv.awaitingDeviceInfo, conv.partialDeviceInfo⟩ message gw.estimate info
      ((mergedDeviceInfo_eq _ conv message rfl).trans hM) hC hG
    constructor <;> simp [hA, hL, hE, Chat.finishTurn] <;>
      first
      | exact hstep.1
      | exact hstep.2

/-- C6, witness: a zip-code message with the location gateway down clears
`awaitingZipCode`, and a complete estimate request with the pricing
gateway down clears `awaitingDeviceInfo` and the stored partial record. -/
theorem claim_C6_witness :
    Chat.zipMatch "92101" = some "92101"
    ∧ (Chat.chatTurn
        { messages := [], awaitingZipCode := true, awaitingDeviceInfo := false
          partialDeviceInfo := none } "92101" failingGateways).session.awaitingZipCode = false
    ∧ (Chat.chatTurn Chat.freshSession
        "what is my iphone 13 worth with 256gb on verizon"
        failingGateways).session.awaitingDeviceInfo = false
    ∧ (Chat.chatTurn Chat.freshSession
        "what is my iphone 13 worth with 256gb on verizon"
        failingGateways).session.partialDeviceInfo = none := by
  refine ⟨by decide,
    claim_C6_failure_clears.1
      { messages := [], awaitingZipCode := true, awaitingDeviceInfo := false
        partialDeviceInfo := none }
      "92101" failingGateways "92101" (by decide), ?_, ?_⟩
  · exact (claim_C6_failure_clears.2 _ _ _
      { modelName := some "Iphone 13", seriesName := some "Iphone 13"
        brandName := some "Apple", storageOption := some "256GB"
        carrierName := some "Verizon"
        missingInfo := some { storage := false, carrier := false, model := false } }
      (by decide) (by decide) (by decide) (by decide) (by decide) (by decide)
      (Or.inl rfl)).1
  · exact (claim_C6_failure_clears.2 _ _ _
      { modelName := some "Iphone 13", seriesName := some "Iphone 13"
        brandName := some "Apple", storageOption := some "256GB"
        carrierName := some "Verizon"
        missingInfo := some { storage := false, carrier := false, model := false } }
      (by decide) (by decide) (by decide) (by decide) (by decide) (by decide)
      (Or.inl rfl)).2

/-- C10: the handler pushes the user turn before any classification — on
every path the new transcript extends the old one by the user turn first —
and when the completion gateway of the general branch throws, the handler
answers with the error payload without pushing an assistant turn, leaving
the transcript changed and ending in a user turn with no reply. -/
theorem claim_C10_turn_not_atomic :
    (∀ (conv : Chat.Session) (message : String) (gw : Chat.Gateways),
      ∃ rest, (Chat.chatTurn conv message gw).session.messages
        = conv.messages ++ ⟨Chat.Role.user, some message⟩ :: rest)
    ∧ (∀ (conv : Chat.Session) (message : String) (gw : Chat.Gateways),
      Chat.zipMatch message = none →
      conv.awaitingZipCode = false →
      Chat.locationCond conv message = false →
      Chat.estimateCond conv message = false →
      gw.completion = .fail →
      (Chat.chatTurn conv message gw).outcome = Chat.TurnOutcome.serverError
        ∧ (Chat.chatTurn conv message gw).session.messages
            = conv.messages ++ [⟨Chat.Role.user, some message⟩]) := by
  constructor
  · intro conv message gw
    unfold Chat.chatTurn
    rcases hz : Chat.zipMatch message with _ | z
    · dsimp only
      split
      · exact ⟨[⟨.assistant, some Chat.askZipRepeatMsg⟩], by simp [Chat.finishTurn]⟩
      · split
        · exact ⟨[⟨.assistant, some Chat.askZipMsg⟩], by simp [Chat.finishTurn]⟩
        · split
          · exact ⟨[⟨.assistant,
              (Chat.estimateStep
                { conv with messages := conv.messages ++ [⟨.user, some message⟩] }
                message gw.estimate).1⟩],
              by simp [Chat.finishTurn, estimateStep_messages]⟩
          · rcases hc : gw.completion with t | _
            · exact ⟨[⟨.assistant, some t⟩], by simp [Chat.finishTurn]⟩
            · exact ⟨[], by simp⟩
    · exact ⟨[⟨.assistant, some (Chat.locationResolve
          { conv with messages := conv.messages ++ [⟨.user, some message⟩] }
          z gw.locations).1⟩],
        by simp [Chat.finishTurn, (locationResolve_session
          { conv with messages := conv.messages ++ [⟨.user, some message⟩] }
          z gw.locations).1]⟩
  · intro conv message gw hz hA hL hE hc
    unfold Chat.chatTurn
    rw [hz]
    simp [hA, hL, hE, hc]

/-- C10, witness: the message `"hello"` with a failing completion gateway
yields the 500 payload and a transcript holding exactly the unanswered
user turn. -/
theorem claim_C10_witness :
    (Chat.chatTurn Chat.freshSession "hello" failingGateways).outcome
      = Chat.TurnOutcome.serverError
    ∧ (Chat.chatTurn Chat.freshSession "hello" failingGateways).session.messages
      = [⟨Chat.Role.user, some "hello"⟩] := by
  have h := claim_C10_turn_not_atomic.2 Chat.freshSession "hello" failingGateways
    (by decide) (by decide) (by decide) (by decide) rfl
  exact ⟨h.1, h.2⟩

set_option maxRecDepth 16384 in
/-- C9: the missing-slot prompt interpolates brand and model
unconditionally, and the state is reachable: after a first estimate
request with no extractable device ("how much can I get for my phone"),
the follow-up "128GB" produces a user-facing prompt whose device
description is the literal text "undefined undefined". -/
theorem claim_C9_undefined_prompt :
    (Chat.chatTurn Chat.freshSession "how much can I get for my phone"
        failingGateways).session.awaitingDeviceInfo = true
    ∧ (Chat.chatTurn Chat.freshSession "how much can I get for my phone"
        failingGateways).session.partialDeviceInfo = none
    ∧ (Chat.chatTurn
        (Chat.chatTurn Chat.freshSession "how much can I get for my phone"
          failingGateways).session
        "128GB" failingGateways).outcome
      = Chat.TurnOutcome.ok (some ("To provide an accurate estimate for your undefined undefined, I need to know the carrier (e.g., Verizon, AT&T, T-Mobile, or Unlocked). Could you please provide this information?"))
    ∧ JsStr.containsSubstr "undefined undefined".data
        "To provide an accurate estimate for your undefined undefined, I need to know the carrier (e.g., Verizon, AT&T, T-Mobile, or Unlocked). Could you please provide this information?".data
      = true := by
  decide

/-- Accumulating `vector[idx] += 1` over the tokens equals the per-slot
token count. -/
theorem foldl_update_counts (idx : List Char → Fin 1536)
    (ws : List (List Char)) (v : Fin 1536 → ℝ) :
    ws.foldl (fun v w => Function.update v (idx w) (v (idx w) + 1)) v
      = fun i => v i + ((ws.countP (fun w => idx w = i) : ℕ) : ℝ) := by
  induction ws generalizing v with
  | nil => funext i; simp
  | cons w ws ih =>
    rw [List.foldl_cons, ih]
    funext i
    rw [List.countP_cons, Function.update_apply]
    by_cases h : idx w = i
    · simp [h]
      ring
    · simp [h, Ne.symm h]

/-- The imperative count loop of `createSimpleEmbedding` computes the
declarative token-count vector. -/
theorem createSimpleEmbedding_eq_counts (text : String) :
    Emb.createSimpleEmbedding text
      = Emb.l2normalize (Emb.tokenCounts Emb.jsIdx text) := by
  unfold Emb.createSimpleEmbedding
  rw [foldl_update_counts]
  unfold Emb.tokenCounts
  funext i
  simp

/-- The token-count vector of the single-token text `"aaaaaa"` under the
source's 32-bit-wrapped hash: an indicator of slot 928. -/
theorem tokenCounts_js_aaaaaa :
    Emb.tokenCounts Emb.jsIdx "aaaaaa"
      = fun i => if (⟨928, by norm_num⟩ : Fin 1536) = i then (1 : ℝ) else 0 := by
  funext i
  unfold Emb.tokenCounts
  rw [show Emb.jsTokens "aaaaaa" = ["aaaaaa".data] from by decide]
  rw [List.countP_cons, List.countP_nil]
  rw [show Emb.jsIdx "aaaaaa".data = ⟨928, by norm_num⟩ from by decide]
  by_cases h : (⟨928, by norm_num⟩ : Fin 1536) = i <;> simp [h]

/-- The token-count vector of `"aaaaaa"` under the exact polynomial hash
of the claim: an indicator of slot 96. -/
theorem tokenCounts_poly_aaaaaa :
    Emb.tokenCounts Emb.polyIdx "aaaaaa"
      = fun i => if (⟨96, by norm_num⟩ : Fin 1536) = i then (1 : ℝ) else 0 := by
  funext i
  unfold Emb.tokenCounts
  rw [show Emb.jsTokens "aaaaaa" = ["aaaaaa".data] from by decide]
  rw [List.countP_cons, List.countP_nil]
  rw [show Emb.polyIdx "aaaaaa".data = ⟨96, by norm_num⟩ from by decide]
  by_cases h : (⟨96, by norm_num⟩ : Fin 1536) = i <;> simp [h]

/-- An indicator vector has squared norm 1. -/
theorem sum_sq_indicator (a : Fin 1536) :
    (∑ j, (if a = j then (1 : ℝ) else 0) * (if a = j then (1 : ℝ) else 0)) = 1 := by
  have : ∀ j, (if a = j then (1 : ℝ) else 0) * (if a = j then (1 : ℝ) else 0)
      = if a = j then (1 : ℝ) else 0 := by
    intro j
    by_cases h : a = j <;> simp [h]
  rw [Finset.sum_congr rfl (fun j _ => this j)]
  simp

/-- C3, counterexample: on the single-token text `"aaaaaa"` the fallback
embedding differs from the claim's reference definition — the source wraps
the hash to a signed 32-bit integer at each `<<` step (slot 928), while the
exact `hash*31 + charCode` accumulation selects slot 96. -/
theorem claim_C3_counterexample :
    Emb.createSimpleEmbedding "aaaaaa" ≠ Emb.specEmbedding "aaaaaa" := by
  rw [createSimpleEmbedding_eq_counts]
  unfold Emb.specEmbedding
  intro h
  have h96 := congrFun h ⟨96, by norm_num⟩
  unfold Emb.l2normalize at h96
  rw [tokenCounts_js_aaaaaa, tokenCounts_poly_aaaaaa] at h96
  rw [sum_sq_indicator, Real.sqrt_one] at h96
  simp only [show ((⟨928, by norm_num⟩ : Fin 1536) = ⟨96, by norm_num⟩) = False from by simp,
    show ((⟨96, by norm_num⟩ : Fin 1536) = ⟨96, by norm_num⟩) = True from by simp,
    if_true, if_false] at h96
  rw [if_neg one_ne_zero] at h96
  norm_num at h96

/-- C3, amended: the fallback embedding equals the claim's reference
definition once the hash accumulation is read with JavaScript's 32-bit
shift semantics (`hash = toInt32(hash << 5) - hash + charCode`); the rest
of the claim — lower-cased non-word split, 1536-slot counts at
`abs(hash) mod 1536`, L2 normalization with a zero norm treated as 1, and
determinism — holds as stated. -/
theorem claim_C3_amended (text : String) :
    Emb.createSimpleEmbedding text = Emb.specEmbeddingInt32 text := by
  rw [createSimpleEmbedding_eq_counts]
  rfl

/-- Membership through the stable descending insertion. -/
theorem mem_insertDesc {p q : ℝ × ℕ} {l : List (ℝ × ℕ)}
    (hq : q ∈ Retr.insertDesc p l) : q = p ∨ q ∈ l := by
  induction l with
  | nil => simpa [Retr.insertDesc] using hq
  | cons r l ih =>
    unfold Retr.insertDesc at hq
    split_ifs at hq with h
    · rcases List.mem_cons.1 hq with h1 | h1
      · exact Or.inr (h1 ▸ List.mem_cons_self r l)
      · rcases ih h1 with h2 | h2
        · exact Or.inl h2
        · exact Or.inr (List.mem_cons_of_mem r h2)
    · rcases List.mem_cons.1 hq with h1 | h1
      · exact Or.inl h1
      · exact Or.inr h1

/-- Membership through the stable descending sort. -/
theorem mem_sortDesc {q : ℝ × ℕ} {l : List (ℝ × ℕ)}
    (hq : q ∈ Retr.sortDesc l) : q ∈ l := by
  induction l with
  | nil => simp [Retr.sortDesc] at hq
  | cons p l ih =>
    unfold Retr.sortDesc at hq
    rcases mem_insertDesc hq with h1 | h1
    · exact h1 ▸ List.mem_cons_self p l
    · exact List.mem_cons_of_mem p (ih h1)

/-- When the inserted pair carries a position smaller than every position
in the list, stable descending insertion and lexicographic insertion
(score descending, then position ascending) agree. -/
theorem insertDesc_eq_insertLex (p : ℝ × ℕ) (l : List (ℝ × ℕ))
    (h : ∀ q ∈ l, p.2 < q.2) :
    Retr.insertDesc p l = Retr.insertLex p l := by
  induction l with
  | nil => rfl
  | cons r l ih =>
    unfold Retr.insertDesc Retr.insertLex
    have hr : p.2 < r.2 := h r (List.mem_cons_self r l)
    by_cases hc : p.1 < r.1
    · rw [if_pos hc, if_pos (Or.inl hc),
        ih (fun q hq => h q (List.mem_cons_of_mem r hq))]
    · have hn : ¬(p.1 < r.1 ∨ (r.1 = p.1 ∧ r.2 < p.2)) := by
        rintro (h1 | ⟨h1, h2⟩)
        · exact hc h1
        · exact lt_asymm hr h2
      rw [if_neg hc, if_neg hn]

/-- On a list whose positions are pairwise increasing, the stable
descending sort coincides with the lexicographic sort. -/
theorem sortDesc_eq_sortLex (l : List (ℝ × ℕ))
    (h : List.Pairwise (fun a b : ℝ × ℕ => a.2 < b.2) l) :
    Retr.sortDesc l = Retr.sortLex l := by
  induction l with
  | nil => rfl
  | cons p l ih =>
    rcases List.pairwise_cons.1 h with ⟨hhead, htail⟩
    unfold Retr.sortDesc Retr.sortLex
    rw [insertDesc_eq_insertLex p (Retr.sortDesc l)
        (fun q hq => hhead q (mem_sortDesc hq)),
      ih htail]

/-- Every pair enumerated from `n` carries a position at least `n`. -/
theorem mem_enumFrom {q : ℝ × ℕ} :
    ∀ {n : ℕ} {xs : List ℝ}, q ∈ Retr.enumFrom n xs → n ≤ q.2 := by
  intro n xs
  induction xs generalizing n with
  | nil => simp [Retr.enumFrom]
  | cons x xs ih =>
    intro hq
    unfold Retr.enumFrom at hq
    rcases List.mem_cons.1 hq with h1 | h1
    · exact h1 ▸ le_refl n
    · exact (Nat.le_succ n).trans (ih h1)

/-- The enumerated score list has pairwise increasing positions. -/
theorem pairwise_enumFrom (n : ℕ) (xs : List ℝ) :
    List.Pairwise (fun a b : ℝ × ℕ => a.2 < b.2) (Retr.enumFrom n xs) := by
  induction xs generalizing n with
  | nil => simp [Retr.enumFrom]
  | cons x xs ih =>
    unfold Retr.enumFrom
    exact List.Pairwise.cons
      (fun b hb => lt_of_lt_of_le (Nat.lt_succ_self n) (mem_enumFrom hb))
      (ih (n + 1))

/-- Stable descending insertion adds one element. -/
theorem length_insertDesc (p : ℝ × ℕ) (l : List (ℝ × ℕ)) :
    (Retr.insertDesc p l).length = l.length + 1 := by
  induction l with
  | nil => rfl
  | cons r l ih =>
    unfold Retr.insertDesc
    split_ifs <;> simp [ih]

/-- Stable descending sort preserves length. -/
theorem length_sortDesc (l : List (ℝ × ℕ)) :
    (Retr.sortDesc l).length = l.length := by
  induction l with
  | nil => rfl
  | cons p l ih =>
    unfold Retr.sortDesc
    rw [length_insertDesc, ih, List.length_cons]

/-- Enumeration preserves length. -/
theorem length_enumFrom (n : ℕ) (xs : List ℝ) :
    (Retr.enumFrom n xs).length = xs.length := by
  induction xs generalizing n with
  | nil => rfl
  | cons x xs ih => unfold Retr.enumFrom; simp [ih]

/-- C4: retrieval equals the specification's description — stored
documents ordered by descending cosine similarity to the query embedding,
any tie between equal scores resolved in favour of the earlier-ingested
document — it truncates to at most `topK` elements, and on an empty index
it returns the empty sequence (total function, no error). -/
theorem claim_C4_retrieval {α : Type} [Inhabited α] (documents : List α)
    (vectorStore : List (List ℝ)) (queryEmbedding : List ℝ) (topK : ℕ) :
    Retr.searchRelevantDocuments documents vectorStore queryEmbedding topK
      = Retr.specSearch documents vectorStore queryEmbedding topK
    ∧ (Retr.searchRelevantDocuments documents vectorStore queryEmbedding topK).length
        = min topK vectorStore.length
    ∧ Retr.searchRelevantDocuments documents [] queryEmbedding topK = [] := by
  refine ⟨?_, ?_, ?_⟩
  · unfold Retr.searchRelevantDocuments Retr.specSearch
    dsimp only
    rw [sortDesc_eq_sortLex _ (pairwise_enumFrom 0 _)]
  · unfold Retr.searchRelevantDocuments
    dsimp only
    rw [List.length_map, List.length_map, List.length_take, length_sortDesc,
      length_enumFrom, List.length_map]
  · unfold Retr.searchRelevantDocuments
    dsimp only
    simp [Retr.enumFrom, Retr.sortDesc]
